import Mathlib

/-!
# Real-Time Quality Monitoring System — verification of the specification

A shallow embedding of `src/QualityMonitoring.c` and proofs checking the
specification's claims against it.

Modelling conventions:
* C `float` values are modelled as exact rationals (`ℚ`); the rounding and
  overflow of IEEE arithmetic, and the non-finite values `inf`/`nan`, are
  outside the model.
* The C `int` counter is modelled as `ℕ` (it is only ever incremented).
* `printf` logging is not modelled except where a diagnostic distinguishes an
  outcome (the validation error kinds, the alert) — those become explicit
  results or trace events.
* Fixed-size C character arrays are modelled as unbounded strings; the
  behaviour of over-long tokens (a buffer overflow in the original) is
  undefined behaviour and outside the model.
-/

namespace QualityMonitoring

/-- `SensorData` (src lines 12-15): one decoded reading, the identifier and the
measured value. -/
structure SensorData where
  id : String
  value : ℚ
deriving DecidableEq

/-- `SensorStats` (src lines 24-31): per-source statistics — static limits,
running total, observed extrema and the number of recorded readings. -/
structure SensorStats where
  min_limit : ℚ
  max_limit : ℚ
  total_value : ℚ
  max_value : ℚ
  min_value : ℚ
  count : ℕ
deriving DecidableEq

/-- The worker's initial statistics, `SensorStats stats = {5.0, 25.0, 0.0,
-1000.0, 1000.0, 0}` (src line 173). -/
def initStats : SensorStats :=
  { min_limit := 5, max_limit := 25, total_value := 0
    max_value := -1000, min_value := 1000, count := 0 }

/-- The rejection kinds of the Validator. `validate_data` reports
`emptyIdentifier` and `outOfRange` through its diagnostics (src lines 102,
106); a failed `sscanf` conversion (src line 179) is the `malformedFrame`
case, logged as an invalid data format. -/
inductive ValidationError where
  | emptyIdentifier
  | outOfRange
  | malformedFrame
deriving DecidableEq

instance : DecidableEq (Except ValidationError SensorData) := fun a b =>
  match a, b with
  | Except.ok x, Except.ok y =>
    if h : x = y then isTrue (by rw [h]) else isFalse (by simp [h])
  | Except.error x, Except.error y =>
    if h : x = y then isTrue (by rw [h]) else isFalse (by simp [h])
  | Except.ok _, Except.error _ => isFalse (by simp)
  | Except.error _, Except.ok _ => isFalse (by simp)

/-- `validate_data` (src lines 100-110), with the error kind of the diagnostic
it prints in place of the bare `0` return: the empty-identifier check runs
first, then the range check `value < 0 || value > 1000`; on success the data
is returned unchanged (the C function returns `1`, leaving the struct as it
was parsed). -/
def validate_data (sensor : SensorData) : Except ValidationError SensorData :=
  if sensor.id.length = 0 then Except.error ValidationError.emptyIdentifier
  else if sensor.value < 0 ∨ sensor.value > 1000 then Except.error ValidationError.outOfRange
  else Except.ok sensor

/-- C `isspace` on the characters of the default locale, the separator class
`sscanf` uses between conversions. -/
def c_isspace (c : Char) : Bool :=
  c == ' ' || c == '\t' || c == '\n' || c == '\x0b' || c == '\x0c' || c == '\r'

/-- The `%s` conversion of `sscanf` (src line 179): skip whitespace, then read
the maximal run of non-whitespace characters; the conversion fails when no
such character follows. -/
def scanString (cs : List Char) : Option (List Char × List Char) :=
  let cs1 := cs.dropWhile c_isspace
  let tok := cs1.takeWhile (fun c => !c_isspace c)
  if tok.isEmpty then none
  else some (tok, cs1.dropWhile (fun c => !c_isspace c))

/-- The value of a run of decimal digits. -/
def digitsToNat (ds : List Char) : ℕ :=
  ds.foldl (fun a c => 10 * a + (c.toNat - '0'.toNat)) 0

/-- An optional sign character; `true` means negative. -/
def scanSign (cs : List Char) : Bool × List Char :=
  match cs with
  | [] => (false, [])
  | c :: r =>
    if c = '+' then (false, r)
    else if c = '-' then (true, r)
    else (false, c :: r)

/-- The optional exponent part of a `%f` conversion: `e`/`E`, an optional
sign, then digits; when no digit follows, nothing is consumed (`strtod`
matches the longest valid prefix). -/
def scanExponent (cs : List Char) : ℤ × List Char :=
  match cs with
  | [] => (0, [])
  | c :: r =>
    if c = 'e' ∨ c = 'E' then
      let sgn := scanSign r
      let ds := sgn.2.takeWhile Char.isDigit
      if ds.isEmpty then (0, c :: r)
      else ((if sgn.1 then -(digitsToNat ds : ℤ) else (digitsToNat ds : ℤ)),
            sgn.2.dropWhile Char.isDigit)
    else (0, c :: r)

/-- The optional fractional part of the significand: a decimal point followed
by a (possibly empty) digit run; without the point nothing is consumed. -/
def scanFrac (cs : List Char) : List Char × List Char :=
  match cs with
  | [] => ([], [])
  | c :: r =>
    if c = '.' then (r.takeWhile Char.isDigit, r.dropWhile Char.isDigit)
    else ([], c :: r)

/-- The `%f` conversion of `sscanf` (src line 179), per `strtod`: skip
whitespace; an optional sign; a digit run with an optional decimal point (at
least one digit in all); an optional exponent. The conversion fails when no
digit is found. Hexadecimal floats and the `inf`/`nan` forms are outside this
exact-rational model. -/
def scanFloat (cs : List Char) : Option (ℚ × List Char) :=
  let sgn := scanSign (cs.dropWhile c_isspace)
  let ip := sgn.2.takeWhile Char.isDigit
  let fpp := scanFrac (sgn.2.dropWhile Char.isDigit)
  if ip.isEmpty && fpp.1.isEmpty then none
  else
    let ex := scanExponent fpp.2
    let mag0 : ℚ := (digitsToNat ip : ℚ) + (digitsToNat fpp.1 : ℚ) / 10 ^ fpp.1.length
    let mag : ℚ := if 0 ≤ ex.1 then mag0 * 10 ^ ex.1.toNat else mag0 / 10 ^ (-ex.1).toNat
    some ((if sgn.1 then -mag else mag), ex.2)

/-- The worker's frame parse, `sscanf(buffer, "%s %f", sensor.id,
&sensor.value) == 2` (src line 179): both conversions must succeed; whatever
input follows the two converted fields is not examined. -/
def parse_frame (s : String) : Option SensorData :=
  match scanString s.data with
  | none => none
  | some (tok, rest) =>
    match scanFloat rest with
    | none => none
    | some (v, _) => some { id := String.mk tok, value := v }

/-- `monitor_quality` (src lines 141-152): add the value to the running total,
bump the count, update the observed extrema, then check the limits the alert
diagnostic prints; the returned Bool is whether the `[ALERT]` line is printed
(`sensor->value < stats->min_limit || sensor->value > stats->max_limit`,
src line 148). -/
def monitor_quality (sensor : SensorData) (stats : SensorStats) : SensorStats × Bool :=
  let s1 : SensorStats :=
    { stats with total_value := stats.total_value + sensor.value, count := stats.count + 1 }
  let s2 : SensorStats :=
    if sensor.value > s1.max_value then { s1 with max_value := sensor.value } else s1
  let s3 : SensorStats :=
    if sensor.value < s2.min_value then { s2 with min_value := sensor.value } else s2
  (s3, decide (sensor.value < s3.min_limit ∨ sensor.value > s3.max_limit))

/-- Recording a sequence of readings in order, threading the statistics. -/
def recordAll (st : SensorStats) (rs : List SensorData) : SensorStats :=
  rs.foldl (fun acc r => (monitor_quality r acc).1) st

/-- Round to the nearest integer, ties to the even integer — the rounding of
`printf`'s fixed-point formatting applied to the exact value. -/
def roundHalfEven (q : ℚ) : ℤ :=
  let f := q.floor
  if q - (f : ℚ) < 1 / 2 then f
  else if (1 : ℚ) / 2 < q - (f : ℚ) then f + 1
  else if f % 2 = 0 then f else f + 1

/-- `printf`'s `%.2f` rendering of the model value: the value rounded to two
fractional digits, the fractional part always printed with exactly two
digits. -/
def fmt2 (v : ℚ) : String :=
  let n := roundHalfEven (v * 100)
  let a := n.natAbs
  (if n < 0 then "-" else "") ++ Nat.repr (a / 100) ++ "." ++
    String.mk [Nat.digitChar (a % 100 / 10), Nat.digitChar (a % 10)]

/-- The record `log_to_csv` appends, `fprintf(file, "%s,%s,%.2f\n",
port_name, sensor->id, sensor->value)` (src line 129). -/
def csv_line (port_name : String) (sensor : SensorData) : String :=
  port_name ++ "," ++ sensor.id ++ "," ++ fmt2 sensor.value ++ "\n"

/-- The observable effects of the worker loop, in the order the calls occur in
`read_serial_thread`: a CSV record appended by `log_to_csv`, a statistics
update by `monitor_quality`, the `[ALERT]` diagnostic printed inside
`monitor_quality`, and the `CloseHandle` release of the serial handle. -/
inductive Event where
  | persisted (port_name : String) (line : String)
  | recorded (id : String) (value : ℚ)
  | alerted (id : String) (port_name : String) (value low high : ℚ)
  | released
deriving DecidableEq

def Event.isPersisted : Event → Bool
  | Event.persisted _ _ => true
  | _ => false

def Event.isRecorded : Event → Bool
  | Event.recorded _ _ => true
  | _ => false

/-- Whether the worker's guard `sscanf(...) == 2 && validate_data(&sensor)`
(src line 179) accepts the frame. -/
def frame_accepted (s : String) : Bool :=
  match parse_frame s with
  | none => false
  | some sensor =>
    match validate_data sensor with
    | Except.ok _ => true
    | Except.error _ => false

/-- One successful `ReadFile` iteration of the worker loop (src lines
177-185): parse and validate the buffer; on success append the CSV record
(`log_to_csv`, src line 181) and then update the statistics and check the
alert (`monitor_quality`, src line 182); on failure only the invalid-format
diagnostic is printed. `persist_ok` models whether `fopen` succeeds inside
`log_to_csv` — on failure that function logs and returns without writing
(src lines 122-126). -/
def process_frame (persist_ok : Bool) (port_name : String) (st : SensorStats)
    (s : String) : SensorStats × List Event :=
  match parse_frame s with
  | none => (st, [])
  | some sensor =>
    match validate_data sensor with
    | Except.error _ => (st, [])
    | Except.ok _ =>
      let r := monitor_quality sensor st
      (r.1,
        (if persist_ok then [Event.persisted port_name (csv_line port_name sensor)] else [])
          ++ Event.recorded sensor.id sensor.value
          :: (if r.2 then
                [Event.alerted sensor.id port_name sensor.value r.1.min_limit r.1.max_limit]
              else []))

/-- One `ReadFile` outcome in the worker loop (src line 177). -/
inductive ReadResult where
  | frame (s : String)
  | readError
deriving DecidableEq

/-- Terminal status of a worker. The loop's only exit is a failed `ReadFile`
(src lines 186-189) — the outcome the specification names `TransportLost`. -/
inductive TermStatus where
  | transportLost
deriving DecidableEq

/-- The worker loop over a finite schedule of transport reads (src lines
175-194): frames are processed in order; the first failed read breaks the
loop, after which `CloseHandle` releases the serial handle (the `released`
event) and the thread returns. An exhausted schedule leaves the worker still
polling (`none`). The fixed 1-second `Sleep` is scheduling policy and is not
modelled. -/
def run_worker (persist_ok : Bool) (port_name : String) :
    SensorStats → List ReadResult → SensorStats × List Event × Option TermStatus
  | st, [] => (st, [], none)
  | st, ReadResult.readError :: _ =>
    (st, [Event.released], some TermStatus.transportLost)
  | st, ReadResult.frame s :: rest =>
    let r := process_frame persist_ok port_name st s
    let w := run_worker persist_ok port_name r.1 rest
    (w.1, r.2 ++ w.2.1, w.2.2)

/-- The state `main` leaves in one entry of its `threads` array (src lines
212-230): a failed `setup_serial` runs `continue` before the entry is ever
assigned, leaving it uninitialized; a failed `_beginthreadex` leaves the NULL
it returned in the entry; otherwise the entry holds a running worker thread. -/
inductive ThreadSlot where
  | uninitialized
  | nullHandle
  | running
deriving DecidableEq

/-- `main`'s startup loop (src lines 212-230) over the per-port outcomes of
the two fallible startup steps (`acquire` = `setup_serial` returned non-NULL,
`spawn` = `_beginthreadex` returned non-NULL). -/
def main_slots (cfg : List (Bool × Bool)) : List ThreadSlot :=
  cfg.map fun p =>
    if p.1 then (if p.2 then ThreadSlot.running else ThreadSlot.nullHandle)
    else ThreadSlot.uninitialized

/-- How many handle slots `main` passes to `WaitForMultipleObjects`:
`num_ports`, the whole `threads` array, regardless of which slots were filled
(src line 233). -/
def waited_handles (cfg : List (Bool × Bool)) : ℕ := cfg.length

/-- How many workers actually started. -/
def started_workers (cfg : List (Bool × Bool)) : ℕ :=
  (main_slots cfg).count ThreadSlot.running



/-! ## Helper lemmas -/

theorem string_length_zero_iff (s : String) : s.length = 0 ↔ s = "" := by
  cases s with
  | mk data =>
    cases data with
    | nil => simp
    | cons c cs =>
      constructor
      · intro h
        simp [String.length] at h
      · intro h
        have h2 := congrArg String.data h
        simp at h2

theorem validate_ok_of_bounds (sensor : SensorData) (hid : sensor.id ≠ "")
    (h0 : 0 ≤ sensor.value) (h1 : sensor.value ≤ 1000) :
    validate_data sensor = Except.ok sensor := by
  unfold validate_data
  rw [if_neg, if_neg]
  · rintro (h | h) <;> linarith
  · rw [string_length_zero_iff]
    exact hid

theorem validate_ok_bounds (sensor : SensorData)
    (h : validate_data sensor = Except.ok sensor) :
    sensor.id ≠ "" ∧ 0 ≤ sensor.value ∧ sensor.value ≤ 1000 := by
  unfold validate_data at h
  by_cases hid : sensor.id.length = 0
  · rw [if_pos hid] at h
    exact absurd h (by simp)
  · rw [if_neg hid] at h
    by_cases hr : sensor.value < 0 ∨ sensor.value > 1000
    · rw [if_pos hr] at h
      exact absurd h (by simp)
    · push_neg at hr
      refine ⟨?_, hr.1, hr.2⟩
      rw [string_length_zero_iff sensor.id] at hid
      exact hid

/-! ## C1 -/

/-- C1: for a non-empty identifier and a value in `[0, 1000]`, `validate_data`
succeeds with exactly that identifier and value; an empty identifier fails
with the empty-identifier kind, and a non-empty identifier with a value below
0 or above 1000 fails with the out-of-range kind. -/
theorem validate_data_correct (id : String) (v : ℚ) :
    (id ≠ "" → 0 ≤ v → v ≤ 1000 → validate_data ⟨id, v⟩ = Except.ok ⟨id, v⟩)
    ∧ (id = "" →
        validate_data ⟨id, v⟩ = Except.error ValidationError.emptyIdentifier)
    ∧ (id ≠ "" → (v < 0 ∨ v > 1000) →
        validate_data ⟨id, v⟩ = Except.error ValidationError.outOfRange) := by
  refine ⟨?_, ?_, ?_⟩
  · intro hid h0 h1
    exact validate_ok_of_bounds ⟨id, v⟩ hid h0 h1
  · intro hid
    unfold validate_data
    rw [if_pos]
    rw [string_length_zero_iff]
    exact hid
  · intro hid hr
    unfold validate_data
    rw [if_neg, if_pos hr]
    rw [string_length_zero_iff]
    exact hid

/-- Witness for C1 at concrete inputs: the identifier TEMP with value 22.50
validates to exactly that reading, and identifier TEMP with value 1500 is
rejected as out of range. -/
theorem validate_data_correct_witness :
    validate_data ⟨"TEMP", 45 / 2⟩ = Except.ok ⟨"TEMP", 45 / 2⟩
    ∧ validate_data ⟨"TEMP", 1500⟩ = Except.error ValidationError.outOfRange :=
  ⟨(validate_data_correct "TEMP" (45 / 2)).1 (by decide) (by norm_num) (by norm_num),
   (validate_data_correct "TEMP" 1500).2.2 (by decide) (Or.inr (by norm_num))⟩

/-! ## C2 -/

/-- C2: `monitor_quality` signals the alert exactly when the value is strictly
below `min_limit` or strictly above `max_limit`; with coherent limits
(`min_limit ≤ max_limit`, as the worker's fixed limits 5.0 and 25.0 are), a
value equal to either limit does not alert. -/
theorem monitor_quality_alert_iff (sensor : SensorData) (stats : SensorStats) :
    ((monitor_quality sensor stats).2 = true
      ↔ (sensor.value < stats.min_limit ∨ sensor.value > stats.max_limit))
    ∧ (stats.min_limit ≤ stats.max_limit → sensor.value = stats.min_limit →
        (monitor_quality sensor stats).2 = false)
    ∧ (stats.min_limit ≤ stats.max_limit → sensor.value = stats.max_limit →
        (monitor_quality sensor stats).2 = false) := by
  have hmain : (monitor_quality sensor stats).2 = true
      ↔ (sensor.value < stats.min_limit ∨ sensor.value > stats.max_limit) := by
    unfold monitor_quality
    dsimp only
    split <;> split <;> simp
  refine ⟨hmain, ?_, ?_⟩
  · intro hco heq
    rw [Bool.eq_false_iff]
    intro htrue
    rcases hmain.1 htrue with h | h <;> rw [heq] at h <;> linarith
  · intro hco heq
    rw [Bool.eq_false_iff]
    intro htrue
    rcases hmain.1 htrue with h | h <;> rw [heq] at h <;> linarith

/-- Witness for C2 at concrete inputs: with the worker's limits (5, 25), the
boundary values 5 and 25 do not alert, while 30 does. -/
theorem monitor_quality_alert_iff_witness :
    (monitor_quality ⟨"TEMP", 5⟩ initStats).2 = false
    ∧ (monitor_quality ⟨"TEMP", 25⟩ initStats).2 = false
    ∧ (monitor_quality ⟨"TEMP", 30⟩ initStats).2 = true :=
  ⟨(monitor_quality_alert_iff ⟨"TEMP", 5⟩ initStats).2.1 (by norm_num [initStats]) rfl,
   (monitor_quality_alert_iff ⟨"TEMP", 25⟩ initStats).2.2 (by norm_num [initStats]) rfl,
   (monitor_quality_alert_iff ⟨"TEMP", 30⟩ initStats).1.2
     (Or.inr (by norm_num [initStats]))⟩


/-! ## C3 — running statistics over a sequence of valid readings -/

theorem mq_fst_eq (sensor : SensorData) (stats : SensorStats) :
    (monitor_quality sensor stats).1 =
      ⟨stats.min_limit, stats.max_limit, stats.total_value + sensor.value,
       max stats.max_value sensor.value, min stats.min_value sensor.value,
       stats.count + 1⟩ := by
  unfold monitor_quality
  dsimp only
  split_ifs with h1 h2 h2
  · rw [max_eq_right (le_of_lt h1), min_eq_right (le_of_lt h2)]
  · rw [max_eq_right (le_of_lt h1), min_eq_left (le_of_not_lt h2)]
  · rw [max_eq_left (le_of_not_lt h1), min_eq_right (le_of_lt h2)]
  · rw [max_eq_left (le_of_not_lt h1), min_eq_left (le_of_not_lt h2)]

theorem recordAll_cons (st : SensorStats) (r : SensorData) (rs : List SensorData) :
    recordAll st (r :: rs) = recordAll (monitor_quality r st).1 rs := rfl

theorem recordAll_fields (rs : List SensorData) (st : SensorStats) :
    (recordAll st rs).min_limit = st.min_limit
    ∧ (recordAll st rs).max_limit = st.max_limit
    ∧ (recordAll st rs).count = st.count + rs.length
    ∧ (recordAll st rs).total_value = st.total_value + (rs.map SensorData.value).sum
    ∧ (recordAll st rs).max_value = (rs.map SensorData.value).foldl max st.max_value
    ∧ (recordAll st rs).min_value = (rs.map SensorData.value).foldl min st.min_value := by
  induction rs generalizing st with
  | nil => simp [recordAll]
  | cons r rs ih =>
    rw [recordAll_cons, mq_fst_eq]
    obtain ⟨a, b, c, d, e, f⟩ := ih ⟨st.min_limit, st.max_limit, st.total_value + r.value,
      max st.max_value r.value, min st.min_value r.value, st.count + 1⟩
    refine ⟨a, b, ?_, ?_, ?_, ?_⟩
    · rw [c]; dsimp only; simp only [List.length_cons]; omega
    · rw [d]; dsimp only; simp only [List.map_cons, List.sum_cons]; ring
    · rw [e]; dsimp only; simp only [List.map_cons, List.foldl_cons]
    · rw [f]; dsimp only; simp only [List.map_cons, List.foldl_cons]

theorem foldl_min_le_init (vs : List ℚ) (a : ℚ) : vs.foldl min a ≤ a := by
  induction vs generalizing a with
  | nil => simp
  | cons v vs ih =>
    simp only [List.foldl_cons]
    exact le_trans (ih (min a v)) (min_le_left a v)

theorem foldl_min_le_mem (vs : List ℚ) (a v : ℚ) (hv : v ∈ vs) : vs.foldl min a ≤ v := by
  induction vs generalizing a with
  | nil => cases hv
  | cons w ws ih =>
    simp only [List.foldl_cons]
    rcases List.mem_cons.mp hv with h | h
    · subst h
      exact le_trans (foldl_min_le_init ws (min a v)) (min_le_right a v)
    · exact ih (min a w) h

theorem foldl_min_mem_or_init (vs : List ℚ) (a : ℚ) :
    vs.foldl min a = a ∨ vs.foldl min a ∈ vs := by
  induction vs generalizing a with
  | nil => exact Or.inl rfl
  | cons w ws ih =>
    simp only [List.foldl_cons]
    rcases ih (min a w) with h | h
    · rcases min_choice a w with hc | hc
      · exact Or.inl (h.trans hc)
      · exact Or.inr (by rw [h.trans hc]; exact List.mem_cons_self w ws)
    · exact Or.inr (List.mem_cons_of_mem w h)

theorem foldl_max_ge_init (vs : List ℚ) (a : ℚ) : a ≤ vs.foldl max a := by
  induction vs generalizing a with
  | nil => simp
  | cons v vs ih =>
    simp only [List.foldl_cons]
    exact le_trans (le_max_left a v) (ih (max a v))

theorem foldl_max_ge_mem (vs : List ℚ) (a v : ℚ) (hv : v ∈ vs) : v ≤ vs.foldl max a := by
  induction vs generalizing a with
  | nil => cases hv
  | cons w ws ih =>
    simp only [List.foldl_cons]
    rcases List.mem_cons.mp hv with h | h
    · subst h
      exact le_trans (le_max_right a v) (foldl_max_ge_init ws (max a v))
    · exact ih (max a w) h

theorem foldl_max_mem_or_init (vs : List ℚ) (a : ℚ) :
    vs.foldl max a = a ∨ vs.foldl max a ∈ vs := by
  induction vs generalizing a with
  | nil => exact Or.inl rfl
  | cons w ws ih =>
    simp only [List.foldl_cons]
    rcases ih (max a w) with h | h
    · rcases max_choice a w with hc | hc
      · exact Or.inl (h.trans hc)
      · exact Or.inr (by rw [h.trans hc]; exact List.mem_cons_self w ws)
    · exact Or.inr (List.mem_cons_of_mem w h)

/-- C3: recording a non-empty sequence of valid readings in order into the
worker's fresh statistics leaves `count` the length of the sequence,
`total_value` the sum of the recorded values, `min_value` the minimum of the
recorded values (a recorded value that bounds them all from below), and
`max_value` their maximum. -/
theorem recordAll_statistics (rs : List SensorData) (hne : rs ≠ [])
    (hvalid : ∀ r ∈ rs, validate_data r = Except.ok r) :
    (recordAll initStats rs).count = rs.length
    ∧ (recordAll initStats rs).total_value = (rs.map SensorData.value).sum
    ∧ ((recordAll initStats rs).min_value ∈ rs.map SensorData.value
        ∧ ∀ v ∈ rs.map SensorData.value, (recordAll initStats rs).min_value ≤ v)
    ∧ ((recordAll initStats rs).max_value ∈ rs.map SensorData.value
        ∧ ∀ v ∈ rs.map SensorData.value, v ≤ (recordAll initStats rs).max_value) := by
  obtain ⟨-, -, hc, ht, hmax, hmin⟩ := recordAll_fields rs initStats
  have hbounds : ∀ v ∈ rs.map SensorData.value, 0 ≤ v ∧ v ≤ 1000 := by
    intro v hv
    obtain ⟨r, hr, hrv⟩ := List.mem_map.mp hv
    obtain ⟨-, h0, h1⟩ := validate_ok_bounds r (hvalid r hr)
    rw [← hrv]
    exact ⟨h0, h1⟩
  obtain ⟨r0, hr0⟩ := List.exists_mem_of_ne_nil rs hne
  have hv0 : r0.value ∈ rs.map SensorData.value := List.mem_map_of_mem SensorData.value hr0
  refine ⟨by rw [hc]; simp [initStats], by rw [ht]; simp [initStats], ⟨?_, ?_⟩, ⟨?_, ?_⟩⟩
  · rw [hmin]
    rcases foldl_min_mem_or_init (rs.map SensorData.value) initStats.min_value with h | h
    · have hle : (rs.map SensorData.value).foldl min initStats.min_value ≤ r0.value :=
        foldl_min_le_mem _ _ _ hv0
      have h1000 : r0.value ≤ 1000 := (hbounds _ hv0).2
      have hinit : (rs.map SensorData.value).foldl min initStats.min_value = r0.value := by
        rw [h]
        rw [h] at hle
        simp [initStats] at hle ⊢
        linarith
      rw [hinit]
      exact hv0
    · exact h
  · intro v hv
    rw [hmin]
    exact foldl_min_le_mem _ _ _ hv
  · rw [hmax]
    rcases foldl_max_mem_or_init (rs.map SensorData.value) initStats.max_value with h | h
    · have hge : r0.value ≤ (rs.map SensorData.value).foldl max initStats.max_value :=
        foldl_max_ge_mem _ _ _ hv0
      have h0 : 0 ≤ r0.value := (hbounds _ hv0).1
      rw [h] at hge
      simp [initStats] at hge
      linarith
    · exact h
  · intro v hv
    rw [hmax]
    exact foldl_max_ge_mem _ _ _ hv

unseal Nat.gcd Rat.add Rat.mul Rat.inv Rat.sub in
/-- Witness for C3: recording the readings (TEMP, 22.5) and (TEMP, 30) into
the fresh statistics gives count 2, total 52.5, minimum 22.5 and maximum 30. -/
theorem recordAll_statistics_witness :
    (recordAll initStats [⟨"TEMP", 45 / 2⟩, ⟨"TEMP", 30⟩]).count
        = ([⟨"TEMP", 45 / 2⟩, ⟨"TEMP", 30⟩] : List SensorData).length
    ∧ (recordAll initStats [⟨"TEMP", 45 / 2⟩, ⟨"TEMP", 30⟩]).total_value
        = (([⟨"TEMP", 45 / 2⟩, ⟨"TEMP", 30⟩] : List SensorData).map SensorData.value).sum
    ∧ ((recordAll initStats [⟨"TEMP", 45 / 2⟩, ⟨"TEMP", 30⟩]).min_value
          ∈ ([⟨"TEMP", 45 / 2⟩, ⟨"TEMP", 30⟩] : List SensorData).map SensorData.value
        ∧ ∀ v ∈ ([⟨"TEMP", 45 / 2⟩, ⟨"TEMP", 30⟩] : List SensorData).map SensorData.value,
            (recordAll initStats [⟨"TEMP", 45 / 2⟩, ⟨"TEMP", 30⟩]).min_value ≤ v)
    ∧ ((recordAll initStats [⟨"TEMP", 45 / 2⟩, ⟨"TEMP", 30⟩]).max_value
          ∈ ([⟨"TEMP", 45 / 2⟩, ⟨"TEMP", 30⟩] : List SensorData).map SensorData.value
        ∧ ∀ v ∈ ([⟨"TEMP", 45 / 2⟩, ⟨"TEMP", 30⟩] : List SensorData).map SensorData.value,
            v ≤ (recordAll initStats [⟨"TEMP", 45 / 2⟩, ⟨"TEMP", 30⟩]).max_value) :=
  recordAll_statistics [⟨"TEMP", 45 / 2⟩, ⟨"TEMP", 30⟩] (by simp) (by decide)

/-! ## C4 and C10 — frame decomposition by the parser -/

theorem takeWhile_append_stop (p : Char → Bool) (xs t : List Char) (c : Char)
    (hc : p c = false) :
    ((xs ++ c :: t).takeWhile p) = xs.takeWhile p := by
  induction xs with
  | nil => simp [List.takeWhile_cons, hc]
  | cons x xs ih =>
    simp only [List.cons_append, List.takeWhile_cons]
    cases hpx : p x
    · simp
    · simp [ih]

theorem dropWhile_append_stop (p : Char → Bool) (xs t : List Char) (c : Char)
    (hc : p c = false) :
    ((xs ++ c :: t).dropWhile p) = xs.dropWhile p ++ c :: t := by
  induction xs with
  | nil => simp [List.dropWhile_cons, hc]
  | cons x xs ih =>
    simp only [List.cons_append, List.dropWhile_cons]
    cases hpx : p x
    · simp
    · simp [ih]

theorem dropWhile_append_of_ne_nil (p : Char → Bool) (xs ys : List Char)
    (h : xs.dropWhile p ≠ []) :
    ((xs ++ ys).dropWhile p) = xs.dropWhile p ++ ys := by
  induction xs with
  | nil => simp at h
  | cons x xs ih =>
    rw [List.dropWhile_cons] at h
    simp only [List.cons_append, List.dropWhile_cons]
    cases hpx : p x
    · simp
    · rw [hpx, if_pos rfl] at h
      simp [ih h]

theorem scanSign_space_append (cs t : List Char) :
    scanSign (cs ++ ' ' :: t) = ((scanSign cs).1, (scanSign cs).2 ++ ' ' :: t) := by
  cases cs with
  | nil => simp [scanSign]
  | cons c r =>
    by_cases h1 : c = '+'
    · simp [scanSign, h1]
    · by_cases h2 : c = '-' <;> simp [scanSign, h1, h2]

theorem scanExponent_space_append (cs t : List Char) :
    scanExponent (cs ++ ' ' :: t) = ((scanExponent cs).1, (scanExponent cs).2 ++ ' ' :: t) := by
  cases cs with
  | nil => simp [scanExponent]
  | cons c r =>
    by_cases he : c = 'e' ∨ c = 'E'
    · simp only [List.cons_append, scanExponent, if_pos he]
      rw [scanSign_space_append]
      rw [takeWhile_append_stop _ _ _ _ (by decide : Char.isDigit ' ' = false)]
      by_cases hds : ((scanSign r).2.takeWhile Char.isDigit).isEmpty
      · simp [hds]
      · simp only [hds, if_false, Bool.false_eq_true]
        rw [dropWhile_append_stop _ _ _ _ (by decide : Char.isDigit ' ' = false)]
    · simp [scanExponent, he]

theorem scanFrac_space_append (cs t : List Char) :
    scanFrac (cs ++ ' ' :: t) = ((scanFrac cs).1, (scanFrac cs).2 ++ ' ' :: t) := by
  cases cs with
  | nil => simp [scanFrac]
  | cons c r =>
    by_cases h : c = '.'
    · simp only [List.cons_append, scanFrac, if_pos h]
      rw [takeWhile_append_stop _ _ _ _ (by decide : Char.isDigit ' ' = false)]
      rw [dropWhile_append_stop _ _ _ _ (by decide : Char.isDigit ' ' = false)]
    · simp [scanFrac, h]

theorem scanString_space_append (cs t tok rest : List Char)
    (h : scanString cs = some (tok, rest)) :
    scanString (cs ++ ' ' :: t) = some (tok, rest ++ ' ' :: t) := by
  have hne : cs.dropWhile c_isspace ≠ [] := by
    intro hnil
    simp only [scanString, hnil] at h
    simp at h
  simp only [scanString] at h ⊢
  rw [dropWhile_append_of_ne_nil c_isspace cs (' ' :: t) hne]
  rw [takeWhile_append_stop _ _ _ _ (by decide : (!c_isspace ' ') = false)]
  rw [dropWhile_append_stop _ _ _ _ (by decide : (!c_isspace ' ') = false)]
  by_cases he : (((cs.dropWhile c_isspace).takeWhile (fun c => !c_isspace c))).isEmpty
  · rw [if_pos he] at h
    cases h
  · rw [if_neg he] at h ⊢
    rw [Option.some.injEq, Prod.mk.injEq] at h ⊢
    exact ⟨h.1, by rw [h.2]⟩

theorem scanFloat_space_append (cs t : List Char) (v : ℚ) (rest : List Char)
    (h : scanFloat cs = some (v, rest)) :
    scanFloat (cs ++ ' ' :: t) = some (v, rest ++ ' ' :: t) := by
  have hne : cs.dropWhile c_isspace ≠ [] := by
    intro hnil
    simp only [scanFloat, hnil] at h
    simp [scanSign, scanFrac] at h
  simp only [scanFloat] at h ⊢
  rw [dropWhile_append_of_ne_nil c_isspace cs (' ' :: t) hne]
  rw [scanSign_space_append]
  rw [takeWhile_append_stop _ _ _ _ (by decide : Char.isDigit ' ' = false)]
  rw [dropWhile_append_stop _ _ _ _ (by decide : Char.isDigit ' ' = false)]
  rw [scanFrac_space_append]
  by_cases hg : (((scanSign (cs.dropWhile c_isspace)).2.takeWhile Char.isDigit).isEmpty
      && ((scanFrac ((scanSign (cs.dropWhile c_isspace)).2.dropWhile Char.isDigit)).1).isEmpty)
  · rw [if_pos hg] at h
    cases h
  · rw [if_neg hg] at h ⊢
    rw [scanExponent_space_append]
    rw [Option.some.injEq, Prod.mk.injEq] at h ⊢
    exact ⟨h.1, by rw [h.2]⟩

theorem string_data_append (a b : String) : (a ++ b).data = a.data ++ b.data := rfl

theorem parse_frame_space_append (s t : String) (d : SensorData)
    (h : parse_frame s = some d) :
    parse_frame (s ++ " " ++ t) = some d := by
  have hdata : (s ++ " " ++ t).data = s.data ++ ' ' :: t.data := by
    rw [string_data_append, string_data_append]
    simp
  unfold parse_frame at h ⊢
  rw [hdata]
  cases hs : scanString s.data with
  | none => rw [hs] at h; cases h
  | some pr =>
    rw [hs] at h
    obtain ⟨tok, rest⟩ := pr
    rw [scanString_space_append s.data t.data tok rest hs]
    dsimp only at h ⊢
    cases hf : scanFloat rest with
    | none => rw [hf] at h; cases h
    | some pv =>
      rw [hf] at h
      obtain ⟨v, vrest⟩ := pv
      rw [scanFloat_space_append rest t.data v vrest hf]
      exact h

/-- C4 (amended): a frame on which `sscanf` converts fewer than two fields —
no identifier token, or no numeric token after it — yields no reading and
leaves the worker's state and trace untouched (the invalid-format branch);
concretely, a one-token frame, a frame whose second token is non-numeric, and
an empty frame are all rejected. A frame with extra trailing tokens after the
two converted fields, however, is accepted with the same reading — the
trailing content is ignored, not rejected. -/
theorem parse_malformed_or_trailing (s t : String) :
    (parse_frame s = none →
      ∀ (persist_ok : Bool) (port_name : String) (st : SensorStats),
        process_frame persist_ok port_name st s = (st, []))
    ∧ (∀ d : SensorData, parse_frame s = some d → parse_frame (s ++ " " ++ t) = some d)
    ∧ parse_frame ("BAD") = none ∧ parse_frame ("TEMP abc") = none
    ∧ parse_frame ("") = none := by
  refine ⟨?_, ?_, by decide, by decide, by decide⟩
  · intro h persist_ok port_name st
    unfold process_frame
    rw [h]
  · intro d hd
    exact parse_frame_space_append s t d hd

unseal Nat.gcd Rat.add Rat.mul Rat.inv Rat.sub in
/-- C4 counterexample: the frame TEMP 10.0 EXTRA carries an extra trailing
token, yet `sscanf` still reports two conversions and the worker accepts the
reading (TEMP, 10) — the frame is not rejected as the claim states. -/
theorem parse_trailing_not_rejected :
    parse_frame ("TEMP 10.0 EXTRA") = some ⟨"TEMP", 10⟩
    ∧ frame_accepted ("TEMP 10.0 EXTRA") = true := by
  exact ⟨by decide, by decide⟩

theorem scanString_tok_ne_nil (cs tok rest : List Char)
    (h : scanString cs = some (tok, rest)) : tok ≠ [] := by
  simp only [scanString] at h
  by_cases he : (((cs.dropWhile c_isspace).takeWhile (fun c => !c_isspace c))).isEmpty
  · rw [if_pos he] at h
    cases h
  · rw [if_neg he] at h
    rw [Option.some.injEq, Prod.mk.injEq] at h
    rw [h.1] at he
    intro hnil
    rw [hnil] at he
    exact he rfl

/-- C10: a successful `%s` conversion always yields a non-empty identifier, so
a frame the worker's parse accepts can never reach the validator's
empty-identifier branch — validation of a parsed frame either succeeds or
fails with the out-of-range kind only. -/
theorem worker_parse_id_nonempty (s : String) (id : String) (v : ℚ)
    (h : parse_frame s = some ⟨id, v⟩) :
    id ≠ ""
    ∧ validate_data ⟨id, v⟩ ≠ Except.error ValidationError.emptyIdentifier
    ∧ (validate_data ⟨id, v⟩ = Except.ok ⟨id, v⟩
       ∨ validate_data ⟨id, v⟩ = Except.error ValidationError.outOfRange) := by
  have hid : id ≠ "" := by
    unfold parse_frame at h
    cases hs : scanString s.data with
    | none => rw [hs] at h; cases h
    | some pr =>
      obtain ⟨tok, rest⟩ := pr
      rw [hs] at h
      dsimp only at h
      cases hf : scanFloat rest with
      | none => rw [hf] at h; cases h
      | some pv =>
        obtain ⟨w, wrest⟩ := pv
        rw [hf] at h
        dsimp only at h
        rw [Option.some.injEq, SensorData.mk.injEq] at h
        have htok := scanString_tok_ne_nil s.data tok rest hs
        intro h0
        have h2 := h.1
        rw [h0] at h2
        exact htok (congrArg String.data h2)
  have hlen : ¬ (⟨id, v⟩ : SensorData).id.length = 0 := by
    dsimp only
    rw [string_length_zero_iff]
    exact hid
  refine ⟨hid, ?_, ?_⟩
  · unfold validate_data
    rw [if_neg hlen]
    by_cases hr : (⟨id, v⟩ : SensorData).value < 0 ∨ (⟨id, v⟩ : SensorData).value > 1000
    · rw [if_pos hr]
      simp
    · rw [if_neg hr]
      simp
  · unfold validate_data
    rw [if_neg hlen]
    by_cases hr : (⟨id, v⟩ : SensorData).value < 0 ∨ (⟨id, v⟩ : SensorData).value > 1000
    · rw [if_pos hr]
      exact Or.inr rfl
    · rw [if_neg hr]
      exact Or.inl rfl

unseal Nat.gcd Rat.add Rat.mul Rat.inv Rat.sub in
/-- Witness for C10 at the frame TEMP 22.50: the parsed identifier TEMP is
non-empty and validation succeeds. -/
theorem worker_parse_id_nonempty_witness :
    "TEMP" ≠ ""
    ∧ validate_data ⟨"TEMP", 45 / 2⟩ ≠ Except.error ValidationError.emptyIdentifier
    ∧ (validate_data ⟨"TEMP", 45 / 2⟩ = Except.ok ⟨"TEMP", 45 / 2⟩
       ∨ validate_data ⟨"TEMP", 45 / 2⟩ = Except.error ValidationError.outOfRange) :=
  worker_parse_id_nonempty ("TEMP 22.50") "TEMP" (45 / 2) (by decide)

/-! ## C7 — rejected frames leave the worker unchanged -/

theorem frame_accepted_false_no_effect (s : String) (h : frame_accepted s = false)
    (persist_ok : Bool) (port_name : String) (st : SensorStats) :
    process_frame persist_ok port_name st s = (st, []) := by
  unfold frame_accepted at h
  unfold process_frame
  cases hs : parse_frame s with
  | none => rfl
  | some sensor =>
    rw [hs] at h
    dsimp only at h ⊢
    cases hv : validate_data sensor with
    | error e => rfl
    | ok d =>
      rw [hv] at h
      cases h

/-- C7: a frame that fails the worker's parse-and-validate guard leaves the
statistics record completely unchanged (all six fields), emits nothing — no
CSV append, no statistics update, no alert — and the loop continues with the
next read exactly as if the frame had not occurred. -/
theorem rejected_frame_no_effect (s : String) (h : frame_accepted s = false) :
    (∀ (persist_ok : Bool) (port_name : String) (st : SensorStats),
      process_frame persist_ok port_name st s = (st, []))
    ∧ (∀ (persist_ok : Bool) (port_name : String) (st : SensorStats)
        (rest : List ReadResult),
      run_worker persist_ok port_name st (ReadResult.frame s :: rest)
        = run_worker persist_ok port_name st rest) := by
  refine ⟨frame_accepted_false_no_effect s h, ?_⟩
  intro persist_ok port_name st rest
  show (let r := process_frame persist_ok port_name st s
        let w := run_worker persist_ok port_name r.1 rest
        (w.1, r.2 ++ w.2.1, w.2.2)) = run_worker persist_ok port_name st rest
  rw [frame_accepted_false_no_effect s h]
  rfl

/-- Witness for C7 at the single-token frame BAD: state unchanged, empty
trace, and the loop step is the identity. -/
theorem rejected_frame_no_effect_witness :
    process_frame true ("COM3") initStats ("BAD") = (initStats, [])
    ∧ run_worker true ("COM3") initStats [ReadResult.frame ("BAD")]
        = run_worker true ("COM3") initStats [] :=
  ⟨(rejected_frame_no_effect ("BAD") (by decide)).1 true ("COM3") initStats,
   (rejected_frame_no_effect ("BAD") (by decide)).2 true ("COM3") initStats []⟩

/-! ## C5 — order of effects for an accepted frame -/

/-- C5 (amended): for a frame that parses and validates, the worker first
appends the CSV record (when the file opens; nothing is appended otherwise)
and only then updates the statistics and emits the alert if one is due — the
persistence call comes first, and the statistics update is the same whether
or not persistence succeeded (a failed append neither prevents nor rolls back
the recording). -/
theorem accepted_frame_effects (persist_ok : Bool) (port_name : String)
    (st : SensorStats) (s : String) (sensor : SensorData)
    (hp : parse_frame s = some sensor)
    (hv : validate_data sensor = Except.ok sensor) :
    (process_frame persist_ok port_name st s).2
      = (if persist_ok then [Event.persisted port_name (csv_line port_name sensor)] else [])
        ++ Event.recorded sensor.id sensor.value
        :: (if (monitor_quality sensor st).2 then
              [Event.alerted sensor.id port_name sensor.value
                (monitor_quality sensor st).1.min_limit (monitor_quality sensor st).1.max_limit]
            else [])
    ∧ (process_frame true port_name st s).1 = (process_frame false port_name st s).1
    ∧ (process_frame persist_ok port_name st s).1 = (monitor_quality sensor st).1 := by
  unfold process_frame
  rw [hp]
  dsimp only
  rw [hv]
  exact ⟨rfl, rfl, rfl⟩

unseal Nat.gcd Rat.add Rat.mul Rat.inv Rat.sub in
/-- C5 counterexample: processing the valid frame TEMP 30.00 produces the
persistence event at trace index 0 and the statistics-record event at index
1 — the worker calls `log_to_csv` before `monitor_quality` (src lines
181-182), so the statistics update does not happen before the persistence
call as the claim states. -/
theorem persistence_precedes_record :
    ((process_frame true ("COM3") initStats ("TEMP 30.00")).2.findIdx? Event.isPersisted
      = some 0)
    ∧ ((process_frame true ("COM3") initStats ("TEMP 30.00")).2.findIdx? Event.isRecorded
      = some 1) :=
  ⟨by decide, by decide⟩

unseal Nat.gcd Rat.add Rat.mul Rat.inv Rat.sub in
/-- Witness for C5 (amended) at the frame TEMP 30.00 on COM3 with the fresh
statistics: persistence event first, then the record, then the alert, and the
resulting statistics do not depend on whether persistence succeeded. -/
theorem accepted_frame_effects_witness :
    (process_frame true ("COM3") initStats ("TEMP 30.00")).2
      = (if true then [Event.persisted ("COM3") (csv_line ("COM3") ⟨"TEMP", 30⟩)] else [])
        ++ Event.recorded ("TEMP") 30
        :: (if (monitor_quality ⟨"TEMP", 30⟩ initStats).2 then
              [Event.alerted ("TEMP") ("COM3") 30
                (monitor_quality ⟨"TEMP", 30⟩ initStats).1.min_limit
                (monitor_quality ⟨"TEMP", 30⟩ initStats).1.max_limit]
            else [])
    ∧ (process_frame true ("COM3") initStats ("TEMP 30.00")).1
        = (process_frame false ("COM3") initStats ("TEMP 30.00")).1
    ∧ (process_frame true ("COM3") initStats ("TEMP 30.00")).1
        = (monitor_quality ⟨"TEMP", 30⟩ initStats).1 :=
  accepted_frame_effects true ("COM3") initStats ("TEMP 30.00") ⟨"TEMP", 30⟩
    (by decide) (by decide)

/-! ## C9 — transport failure ends the worker and releases the handle once -/

theorem process_frame_no_released (persist_ok : Bool) (port_name : String)
    (st : SensorStats) (s : String) :
    Event.released ∉ (process_frame persist_ok port_name st s).2 := by
  unfold process_frame
  cases parse_frame s with
  | none => simp
  | some sensor =>
    dsimp only
    cases validate_data sensor with
    | error e => simp
    | ok d =>
      dsimp only
      intro hmem
      rcases List.mem_append.mp hmem with hm | hm
      · rcases ha : persist_ok with _ | _
        · rw [ha] at hm
          simp at hm
        · rw [ha] at hm
          simp at hm
      · rcases List.mem_cons.mp hm with hm2 | hm2
        · cases hm2
        · rcases hb : (monitor_quality sensor st).2 with _ | _
          · rw [hb] at hm2
            simp at hm2
          · rw [hb] at hm2
            simp at hm2

/-- C9: on any read schedule whose frames are followed by a failed read, the
worker loop terminates at that failure with terminal status `transportLost`
(the loop's only exit, src lines 186-189), and the trace of the whole run
contains exactly one `released` event — the single `CloseHandle` after the
loop (src line 192): released exactly once, no double release and no leak. -/
theorem worker_transport_lost (persist_ok : Bool) (port_name : String)
    (st : SensorStats) (frames : List String) (rest : List ReadResult) :
    (run_worker persist_ok port_name st
        (frames.map ReadResult.frame ++ ReadResult.readError :: rest)).2.2
      = some TermStatus.transportLost
    ∧ ((run_worker persist_ok port_name st
        (frames.map ReadResult.frame ++ ReadResult.readError :: rest)).2.1).count
          Event.released = 1 := by
  induction frames generalizing st with
  | nil =>
    simp [run_worker]
  | cons f fs ih =>
    simp only [List.map_cons, List.cons_append, run_worker, List.append_eq]
    obtain ⟨h1, h2⟩ := ih (process_frame persist_ok port_name st f).1
    refine ⟨h1, ?_⟩
    rw [List.count_append, h2]
    rw [List.count_eq_zero.mpr (process_frame_no_released persist_ok port_name st f)]

/-! ## C6 — supervisor startup and wait -/

/-- C6: startup-failure isolation holds — a source whose acquisition fails is
skipped by `continue` without affecting the other sources' slots — but the
claim's second half fails: `main` passes `num_ports` handle slots to
`WaitForMultipleObjects` regardless of which were filled (src line 233).
With COM3 failing acquisition only two workers start, yet three slots are
waited on, the first of them never initialized. -/
theorem supervisor_wait_mismatch (cfg1 cfg2 : List (Bool × Bool)) (b : Bool) :
    (main_slots (cfg1 ++ (false, b) :: cfg2)
       = main_slots cfg1 ++ ThreadSlot.uninitialized :: main_slots cfg2)
    ∧ main_slots [(false, true), (true, true), (true, true)]
        = [ThreadSlot.uninitialized, ThreadSlot.running, ThreadSlot.running]
    ∧ started_workers [(false, true), (true, true), (true, true)] = 2
    ∧ waited_handles [(false, true), (true, true), (true, true)] = 3 := by
  refine ⟨?_, by decide, by decide, by decide⟩
  · simp [main_slots]

/-! ## C8 — the persisted record format -/

theorem string_eq_of_data (a b : String) (h : a.data = b.data) : a = b := by
  cases a
  cases b
  exact congrArg String.mk h

theorem digitChar_isDigit (n : ℕ) (h : n < 10) : (Nat.digitChar n).isDigit = true := by
  interval_cases n <;> decide

unseal Nat.gcd Rat.add Rat.mul Rat.inv Rat.sub in
/-- C8: every record `log_to_csv` appends is the port name, the reading tag
and the value rendered with exactly two fractional digits, joined by commas
and terminated by a newline (src line 129); concretely, the frame TEMP 22.50
on COM3 is persisted as the line COM3,TEMP,22.50 followed by a newline. -/
theorem csv_record_format (port_name : String) (sensor : SensorData) :
    (∃ ipart frac : String,
      csv_line port_name sensor
        = port_name ++ "," ++ sensor.id ++ "," ++ ipart ++ "." ++ frac ++ "\n"
      ∧ frac.length = 2 ∧ frac.data.all Char.isDigit = true)
    ∧ parse_frame ("TEMP 22.50") = some ⟨"TEMP", 45 / 2⟩
    ∧ csv_line ("COM3") ⟨"TEMP", 45 / 2⟩ = "COM3,TEMP,22.50\n" := by
  refine ⟨?_, by decide, by decide⟩
  · refine ⟨(if roundHalfEven (sensor.value * 100) < 0 then "-" else "")
        ++ Nat.repr ((roundHalfEven (sensor.value * 100)).natAbs / 100),
      String.mk [Nat.digitChar ((roundHalfEven (sensor.value * 100)).natAbs % 100 / 10),
                 Nat.digitChar ((roundHalfEven (sensor.value * 100)).natAbs % 10)],
      ?_, rfl, ?_⟩
    · apply string_eq_of_data
      simp [csv_line, fmt2, string_data_append]
    · simp only [List.all_cons, List.all_nil, Bool.and_true]
      rw [digitChar_isDigit _ (by omega), digitChar_isDigit _ (by omega)]
      rfl

end QualityMonitoring
